import Mathlib

/-!
Shallow embedding of `src/onionshare/onion.py` (the `Onion` class): the
error taxonomy, the automatic / manual connection strategies of
`Onion.__init__`, the bootstrap-monitor poll loop, the stealth capability
probe, `Onion.start`, `Onion.cleanup`, and `Onion._get_available_port`.

The Tor control channel (stem's `Controller`) is external to the
repository; it is represented by abstract behaviour parameters (which
endpoints accept a connection, what content a `create_ephemeral_hidden_service`
call returns, whether a signal call raises).  Python exceptions are
modelled by explicit outcome constructors; a bare `except:` in the source
becomes a total match over every failing branch.
-/

set_option autoImplicit false

namespace Onionshare

/-- The exception classes declared at the top of `onion.py`, as one inductive
of error kinds. -/
inductive TorError where
  | TorErrorAutomatic
  | TorErrorInvalidSetting
  | TorErrorSocketPort
  | TorErrorSocketFile
  | TorErrorMissingPassword
  | TorErrorUnreadableCookieFile
  | TorErrorAuthError
  | TorErrorProtocolError
  | TorTooOld
  | BundledTorNotSupported
  | BundledTorTimeout
  deriving DecidableEq, Repr

/-- Argument record of a `create_ephemeral_hidden_service` call: the port
map, the optional `basic_auth` dictionary (keys with optional client auth
values), and the `await_publication` flag. -/
structure CreateReq where
  portMap : List (Nat × Nat)
  basicAuth : Option (List (String × Option String))
  awaitPublication : Bool
  deriving DecidableEq, Repr

/-- Reply content of a successful `ADD_ONION`: `res.content()` is a list of
rows, each row a tuple of string fields (stem returns triples such as
`('250', '-', 'ServiceID=xyz')`). -/
abbrev Content := List (List String)

/-- Result of a `create_ephemeral_hidden_service` call on the channel:
success with reply content, a `stem.ProtocolError`, or any other raised
exception. -/
inductive CreateResult where
  | ok (content : Content)
  | protocolError
  | otherError
  deriving DecidableEq, Repr

/-- A control channel, abstracted to the behaviour of its
`create_ephemeral_hidden_service` method. -/
abbrev Channel := CreateReq → CreateResult

/-- Helper for `pySplit`: split a character list at every occurrence of
`c`, accumulating the current segment reversed. -/
def splitAux (c : Char) : List Char → List Char → List (List Char)
  | [], acc => [acc.reverse]
  | x :: xs, acc =>
    if x = c then acc.reverse :: splitAux c xs []
    else splitAux c xs (x :: acc)

/-- Python `s.split(c)` for a one-character separator (every separator in
`onion.py` is one character: `=` and `:`). -/
def pySplit (s : String) (c : Char) : List String :=
  (splitAux c s.data []).map String.mk

/-- `res.content()[0][2].split('=')[1]` — `none` models the `IndexError`
Python would raise when the reply is too short or the field has no `=`. -/
def parseServiceId (content : Content) : Option String := do
  let row ← content.get? 0
  let f ← row.get? 2
  (pySplit f '=').get? 1

/-- `res.content()[2][2].split('=')[1].split(':')[1]` — the stealth auth
cookie; `none` models the `IndexError` on a malformed reply. -/
def parseAuthCookie (content : Content) : Option String := do
  let row ← content.get? 2
  let f ← row.get? 2
  let v ← (pySplit f '=').get? 1
  (pySplit v ':').get? 1

/-- The mutable fields of an `Onion` instance that `start` and `cleanup`
read or write.  `tor_proc` is the pid of the bundled tor subprocess, when
one was launched. -/
structure OnionState where
  stealth : Bool
  supports_ephemeral : Bool
  supports_stealth : Bool
  service_id : Option String
  auth_string : Option String
  tor_proc : Option Nat
  deriving DecidableEq, Repr

/-- Outcome of a call to `Onion.start`: the returned onion hostname, a
raised `TorError`, or an unhandled Python exception (e.g. `IndexError`
while parsing the reply). -/
inductive StartOutcome where
  | ok (host : String)
  | raised (e : TorError)
  | crashed
  deriving DecidableEq, Repr

/-- The request `start` issues: both branches of `if basic_auth != None`
call `create_ephemeral_hidden_service` with `{80: port}` and
`await_publication=True`; they differ only in passing `basic_auth`
(`{'onionshare': None}` iff `self.stealth`). -/
def startReq (stealth : Bool) (port : Nat) : CreateReq :=
  { portMap := [(80, port)],
    basicAuth := if stealth then some [("onionshare", none)] else none,
    awaitPublication := true }

/-- `Onion.start(port)`: returns the outcome, the instance state
afterwards, and the list of `create_ephemeral_hidden_service` calls issued. -/
def start (st : OnionState) (chan : Channel) (port : Nat) :
    StartOutcome × OnionState × List CreateReq :=
  let st := { st with auth_string := none }
  if !st.supports_ephemeral then
    (.raised .TorTooOld, st, [])
  else if st.stealth && !st.supports_stealth then
    (.raised .TorTooOld, st, [])
  else
    let req : CreateReq := startReq st.stealth port
    match chan req with
    | .protocolError => (.raised .TorErrorProtocolError, st, [req])
    | .otherError => (.crashed, st, [req])
    | .ok content =>
      match parseServiceId content with
      | none => (.crashed, st, [req])
      | some sid =>
        let onion_host := sid ++ ".onion"
        let st := { st with service_id := some sid }
        if st.stealth then
          match parseAuthCookie content with
          | none => (.crashed, st, [req])
          | some cookie =>
            (.ok onion_host,
             { st with auth_string := some ("HidServAuth " ++ onion_host ++ " " ++ cookie) },
             [req])
        else
          (.ok onion_host, st, [req])

/-- The sentinel request of the stealth capability probe:
`create_ephemeral_hidden_service({1:1}, basic_auth={'onionshare':None},
await_publication=False)`. -/
def probeReq : CreateReq :=
  { portMap := [(1, 1)], basicAuth := some [("onionshare", none)], awaitPublication := false }

/-- The stealth capability probe of `Onion.__init__` (lines 325-333).
`removeOk sid` says whether `remove_ephemeral_hidden_service(sid)`
succeeds.  Returns the recorded `supports_stealth` flag and the list of
service ids the probe asked to remove.  The whole body sits in a
`try: ... except:` with a bare except, so every failing path lands in the
`supports_stealth = False` branch and nothing propagates. -/
def stealthProbe (chan : Channel) (removeOk : String → Bool) :
    Bool × List String :=
  match chan probeReq with
  | .protocolError => (false, [])
  | .otherError => (false, [])
  | .ok content =>
    match parseServiceId content with
    | none => (false, [])          -- IndexError from parsing, caught by the bare except
    | some tmp_service_id =>
      if removeOk tmp_service_id then
        (true, [tmp_service_id])
      else
        (false, [tmp_service_id])  -- removal raised, caught by the bare except

/-- Result of `Popen.poll()` after the 200ms grace period: `None` when the
process is still running, otherwise the exit status. -/
inductive PollResult where
  | stillRunning
  | exited (code : Int)
  deriving DecidableEq, Repr

/-- Python truthiness of `not self.tor_proc.poll()`: `not None` and `not 0`
are `True`, `not c` for a nonzero status is `False`. -/
def pollIsFalsy : PollResult → Bool
  | .stillRunning => true
  | .exited c => c == 0

/-- Environment behaviour during `Onion.cleanup`: whether
`remove_ephemeral_hidden_service` raises, whether `terminate()` raises,
what `poll()` reports after the grace period, whether `kill()` raises. -/
structure CleanupWorld where
  removeRaises : Bool
  terminateRaises : Bool
  pollAfterGrace : PollResult
  killRaises : Bool
  deriving DecidableEq, Repr

/-- Signals `cleanup` sends to the tor subprocess, in order. -/
inductive Signal where
  | terminate
  | kill
  deriving DecidableEq, Repr

/-- Whether a call returned normally or let a Python exception propagate. -/
inductive CallOutcome where
  | ok
  | raised
  deriving DecidableEq, Repr

/-- `Onion.cleanup()` (lines 373-391): outcome, state afterwards, and the
signals sent to the tor subprocess.  The service-removal call sits inside
`try: ... except: pass`, so its failure is discarded; the `terminate`,
`poll` and `kill` calls on `tor_proc` have no handler, so a raising signal
call propagates before `self.tor_proc = None` runs. -/
def cleanup (st : OnionState) (w : CleanupWorld) :
    CallOutcome × OnionState × List Signal :=
  -- if self.service_id: try remove except: pass; self.service_id = None
  let st1 :=
    match st.service_id with
    | some _ =>
      let _res : CallOutcome := if w.removeRaises then .raised else .ok
      -- the bare except discards _res either way
      { st with service_id := none }
    | none => st
  -- if self.tor_proc: terminate; sleep(0.2); if not poll(): kill; tor_proc = None
  match st1.tor_proc with
  | none => (.ok, st1, [])
  | some _ =>
    if w.terminateRaises then
      (.raised, st1, [Signal.terminate])
    else if pollIsFalsy w.pollAfterGrace then
      if w.killRaises then
        (.raised, st1, [Signal.terminate, Signal.kill])
      else
        (.ok, { st1 with tor_proc := none }, [Signal.terminate, Signal.kill])
    else
      (.ok, { st1 with tor_proc := none }, [Signal.terminate])

/-- A connection candidate the automatic strategy attempts: a TCP control
port (`Controller.from_port`) or a control socket path
(`Controller.from_socket_file`). -/
inductive Attempt where
  | port (p : Nat)
  | socketFile (path : String)
  deriving DecidableEq, Repr

/-- Environment behaviour for the automatic strategy: the
`TOR_CONTROL_PORT` override, which ports and socket paths accept a
connection, and whether the final `authenticate()` succeeds. -/
structure AutoWorld where
  envPort : Option Nat
  portOk : Nat → Bool
  socketOk : String → Bool
  authOk : Bool

/-- The macOS Tor Browser control socket guess (`os.path.expanduser` of
`~/Library/Application Support/TorBrowser-Data/Tor/control.socket`). -/
def darwinSocketPath : String :=
  "~/Library/Application Support/TorBrowser-Data/Tor/control.socket"

/-- `'/run/user/{}/Tor/control.socket'.format(os.geteuid())`. -/
def runUserSocketPath (euid : Nat) : String :=
  "/run/user/" ++ toString euid ++ "/Tor/control.socket"

/-- The `try: for port in ports: self.c = Controller.from_port(port);
found_tor = True / except: pass` loop (lines 239-245).  A failing
`from_port` raises out of the `for`, so iteration stops at the first
failing port; a successful port sets `c` and `found_tor` and the loop
continues to the next port.  Returns (attempts made, connected endpoint,
found flag). -/
def tryPorts (w : AutoWorld) : List Nat → Option Attempt → Bool →
    List Attempt × Option Attempt × Bool
  | [], c, found => ([], c, found)
  | p :: rest, c, found =>
    if w.portOk p then
      let (as, c2, f2) := tryPorts w rest (some (Attempt.port p)) true
      (Attempt.port p :: as, c2, f2)
    else
      ([Attempt.port p], c, found)

/-- The shared tail of the automatic branch: the second socket-file guess
under `if not found_tor:` (lines 259-275) followed by `authenticate()`
(lines 277-281). -/
def automaticTail (system : String) (euid : Nat) (w : AutoWorld)
    (c : Option Attempt) (found : Bool) (tr : List Attempt) :
    Except TorError Attempt × List Attempt :=
  let (c2, tr2) :=
    if found then (c, tr)
    else if system == "Windows" then
      -- `raise TorErrorAutomatic` inside the try; the bare except catches it
      -- and re-raises TorErrorAutomatic, before any socket attempt
      (none, tr)
    else
      let path := runUserSocketPath euid   -- Linux and the Darwin TODO branch agree
      if w.socketOk path then (some (Attempt.socketFile path), tr ++ [Attempt.socketFile path])
      else (none, tr ++ [Attempt.socketFile path])
  match c2 with
  | none => (.error .TorErrorAutomatic, tr2)
  | some endpoint =>
    if w.authOk then (.ok endpoint, tr2)
    else (.error .TorErrorAutomatic, tr2)

/-- The automatic branch of `Onion.__init__` (lines 222-281): returns the
authenticated endpoint or the raised error, together with every connection
candidate attempted, in order. -/
def automaticConnect (system : String) (euid : Nat) (w : AutoWorld) :
    Except TorError Attempt × List Attempt :=
  match w.envPort with
  | some ep =>
    -- TOR_CONTROL_PORT override: one try/except around from_port
    if w.portOk ep then
      automaticTail system euid w (some (Attempt.port ep)) true [Attempt.port ep]
    else
      automaticTail system euid w none false [Attempt.port ep]
  | none =>
    let (tr1, c1, found1) := tryPorts w [9151, 9153, 9051] none false
    if found1 then
      automaticTail system euid w c1 true tr1
    else
      -- first socket-file guess (lines 247-257), still inside the else branch
      let path := if system == "Darwin" then darwinSocketPath else ""
      if w.socketOk path then
        automaticTail system euid w (some (Attempt.socketFile path)) true
          (tr1 ++ [Attempt.socketFile path])
      else
        automaticTail system euid w c1 false (tr1 ++ [Attempt.socketFile path])

/-- The settings fields the manual branch of `Onion.__init__` reads. -/
structure ManualSettings where
  connection_type : String
  auth_type : String
  auth_password : String
  control_port_address : String
  control_port_port : Nat
  socket_file_path : String
  deriving DecidableEq, Repr

/-- Outcome of `self.c.authenticate(...)` in the manual branch: success or
one of the stem exception classes the code catches. -/
inductive AuthResult where
  | ok
  | missingPassword
  | unreadableCookieFile
  | authenticationFailure
  deriving DecidableEq, Repr

/-- Environment behaviour for the manual strategy: whether the configured
port / socket endpoint accepts a connection, and what `authenticate`
reports. -/
structure ManualWorld where
  portConnectOk : Bool
  socketConnectOk : Bool
  authResult : AuthResult
  deriving DecidableEq, Repr

/-- The connect phase of the manual branch (lines 286-299).  The body of
the `try` either connects, or raises — a failing `from_port` /
`from_socket_file`, or the explicit `raise TorErrorInvalidSetting` on an
unrecognized connection type.  The handler is a bare `except:`, so it
catches all three alike and re-raises by connection type:
`TorErrorSocketPort` for `'control_port'`, `TorErrorSocketFile` for
everything else. -/
def manualConnectPhase (s : ManualSettings) (w : ManualWorld) :
    Except TorError Unit :=
  let body : Except Unit Unit :=
    if s.connection_type == "control_port" then
      if w.portConnectOk then .ok () else .error ()
    else if s.connection_type == "socket_file" then
      if w.socketConnectOk then .ok () else .error ()
    else
      .error ()   -- raise TorErrorInvalidSetting(...), caught by the bare except below
  match body with
  | .ok () => .ok ()
  | .error () =>
    if s.connection_type == "control_port" then .error .TorErrorSocketPort
    else .error .TorErrorSocketFile

/-- The authenticate phase of the manual branch (lines 302-316).  The
except clauses here are specific (`MissingPassword`,
`UnreadableCookieFile`, `AuthenticationFailure`), so the
`raise TorErrorInvalidSetting` on an unrecognized auth type propagates. -/
def manualAuthPhase (s : ManualSettings) (w : ManualWorld) :
    Except TorError Unit :=
  if s.auth_type == "no_auth" || s.auth_type == "password" then
    match w.authResult with
    | .ok => .ok ()
    | .missingPassword => .error .TorErrorMissingPassword
    | .unreadableCookieFile => .error .TorErrorUnreadableCookieFile
    | .authenticationFailure => .error .TorErrorAuthError
  else
    .error .TorErrorInvalidSetting

/-- The whole manual branch of `Onion.__init__` (lines 283-316): connect,
then authenticate. -/
def manualConnect (s : ManualSettings) (w : ManualWorld) :
    Except TorError Unit := do
  manualConnectPhase s w
  manualAuthPhase s w

/-- `res_parts[2].split('=')[1]` of a tokenized bootstrap-phase reply
(`shlex.split` already applied): the PROGRESS value. -/
def parseProgress (tokens : List String) : Option String := do
  let f ← tokens.get? 2
  (pySplit f '=').get? 1

/-- `res_parts[4].split('=')[1]` of a tokenized bootstrap-phase reply: the
SUMMARY value. -/
def parseSummary (tokens : List String) : Option String := do
  let f ← tokens.get? 4
  (pySplit f '=').get? 1

/-- Outcome of the bootstrap poll loop: success after a number of polls,
timeout after a number of polls having sent a number of `terminate()`
calls, an unhandled parse exception, or fuel exhaustion (the loop still
spinning). -/
inductive MonitorOutcome where
  | done (polls : Nat)
  | timeout (polls : Nat) (terminations : Nat)
  | crashed
  | fuelOut
  deriving DecidableEq, Repr

/-- The bootstrap poll loop of the bundled branch (lines 198-220).
`replies i` is the tokenized `GETINFO status/bootstrap-phase` reply of
poll `i`; `clock i` is `time.time() - start_ts` in seconds at the timeout
check that follows poll `i`.  Each iteration parses PROGRESS and SUMMARY
(a malformed reply is an uncaught `IndexError`), breaks on
`summary == 'Done'`, sleeps, and only then compares the elapsed time
against 45; on timeout it calls `self.tor_proc.terminate()` once and
raises `BundledTorTimeout`. -/
def monitor (replies : Nat → List String) (clock : Nat → ℚ) :
    Nat → Nat → MonitorOutcome
  | 0, _ => .fuelOut
  | fuel + 1, i =>
    match parseProgress (replies i), parseSummary (replies i) with
    | some _, some summary =>
      if summary == "Done" then .done (i + 1)
      else if clock i > 45 then .timeout (i + 1) 1
      else monitor replies clock fuel (i + 1)
    | _, _ => .crashed

/-- `Onion._get_available_port` (lines 404-418): draw
`random.randint(1000, 65535)` values from `rands` starting at draw index
`i`, bind-probe each (`avail`), and return the first port that binds
together with the next unused draw index.  `none` models the loop never
finding a bindable port within `fuel` draws. -/
def get_available_port (rands : Nat → Nat) (avail : Nat → Bool) :
    Nat → Nat → Option (Nat × Nat)
  | 0, _ => none
  | fuel + 1, i =>
    if avail (rands i) then some (rands i, i + 1)
    else get_available_port rands avail fuel (i + 1)

/-- The two port allocations of a bundled Windows session (lines 154 and
157): the control port is probed first, its probe socket is closed, and
then the SOCKS port is probed with the remaining random draws.  `avail1`
and `avail2` are the bindability of ports at the two probe times. -/
def bundledWindowsPorts (rands : Nat → Nat) (avail1 avail2 : Nat → Bool)
    (fuel : Nat) : Option (Nat × Nat) :=
  match get_available_port rands avail1 fuel 0 with
  | none => none
  | some (control, j) =>
    match get_available_port rands avail2 fuel j with
    | none => none
    | some (socks, _) => some (control, socks)

/-! Theorems about the claims. -/

/-- C4: for every manager and every port, `start(port)` raises `TorTooOld`
if ephemeral services are unsupported, or if stealth was requested and
stealth is unsupported; in these cases no
`create_ephemeral_hidden_service` call is issued. -/
theorem start_capability_gate (st : OnionState) (chan : Channel) (port : Nat)
    (h : st.supports_ephemeral = false ∨ (st.stealth = true ∧ st.supports_stealth = false)) :
    (start st chan port).1 = .raised .TorTooOld ∧ (start st chan port).2.2 = [] := by
  rcases h with h | ⟨h1, h2⟩
  · simp [start, h]
  · cases hse : st.supports_ephemeral <;> simp [start, hse, h1, h2]

/-- Witness for C4 at a concrete manager lacking ephemeral support. -/
theorem start_capability_gate_witness :
    (start { stealth := false, supports_ephemeral := false, supports_stealth := false,
             service_id := none, auth_string := none, tor_proc := none }
           (fun _ => CreateResult.otherError) 8080).1 = .raised .TorTooOld
    ∧ (start { stealth := false, supports_ephemeral := false, supports_stealth := false,
               service_id := none, auth_string := none, tor_proc := none }
             (fun _ => CreateResult.otherError) 8080).2.2 = [] :=
  start_capability_gate _ _ 8080 (Or.inl rfl)

/-- C10: every call to `start` first resets `auth_string` to `None`: after
a non-stealth call (whatever its outcome) `auth_string` is `None`, and
after any call that raises or crashes `auth_string` is `None`. -/
theorem start_resets_auth_string (st : OnionState) (chan : Channel) (port : Nat) :
    (st.stealth = false → (start st chan port).2.1.auth_string = none)
    ∧ (∀ e, (start st chan port).1 = .raised e → (start st chan port).2.1.auth_string = none)
    ∧ ((start st chan port).1 = .crashed → (start st chan port).2.1.auth_string = none) := by
  rcases hE : start st chan port with ⟨out, st2, tr⟩
  simp only [start] at hE
  repeat' split at hE
  all_goals cases hE
  all_goals simp_all

/-- Witness for C10 at a concrete stealth manager whose previous start left
an auth string and whose channel rejects the request with a protocol
error: the stale auth string is discarded. -/
theorem start_resets_auth_string_witness :
    (start { stealth := true, supports_ephemeral := true, supports_stealth := true,
             service_id := some "old", auth_string := some "HidServAuth old.onion c",
             tor_proc := none } (fun _ => CreateResult.protocolError) 8080).2.1.auth_string = none :=
  (start_resets_auth_string _ (fun _ => CreateResult.protocolError) 8080).2.1
    .TorErrorProtocolError rfl

/-- C3: a successful `start(p)` on a manager with ephemeral support passes
the port map exactly `{80: p}` (with the stealth basic-auth sentinel iff
stealth was requested) in its single `create_ephemeral_hidden_service`
call, returns `serviceId + ".onion"` for the service id reported by the
channel, and, when stealth was requested, derives
`HidServAuth <onionHost> <cookie>` from the returned auth cookie. -/
theorem start_success_contract (st : OnionState) (chan : Channel) (p : Nat)
    (content : Content) (sid cookie : String)
    (heph : st.supports_ephemeral = true)
    (hst : st.stealth = true → st.supports_stealth = true)
    (hchan : chan (startReq st.stealth p) = .ok content)
    (hsid : parseServiceId content = some sid)
    (hcookie : st.stealth = true → parseAuthCookie content = some cookie) :
    (start st chan p).1 = .ok (sid ++ ".onion")
    ∧ (start st chan p).2.2 = [startReq st.stealth p]
    ∧ (startReq st.stealth p).portMap = [(80, p)]
    ∧ (startReq st.stealth p).awaitPublication = true
    ∧ (start st chan p).2.1.service_id = some sid
    ∧ (st.stealth = true →
        (start st chan p).2.1.auth_string =
          some ("HidServAuth " ++ (sid ++ ".onion") ++ " " ++ cookie)) := by
  cases hs : st.stealth
  · rw [hs] at hchan
    simp only [startReq, Bool.false_eq_true, if_false] at hchan
    simp [start, startReq, heph, hs, hchan, hsid]
  · have hss := hst hs
    have hck := hcookie hs
    rw [hs] at hchan
    simp only [startReq, if_true] at hchan
    simp [start, startReq, heph, hs, hss, hchan, hsid, hck]

/-- Witness for C3: a non-stealth manager whose channel reports service id
`abc`. -/
theorem start_success_contract_witness :
    (start { stealth := false, supports_ephemeral := true, supports_stealth := false,
             service_id := none, auth_string := none, tor_proc := none }
           (fun _ => CreateResult.ok [["250", "-", "ServiceID=abc"]]) 8080).1
      = .ok ("abc" ++ ".onion")
    ∧ (start { stealth := false, supports_ephemeral := true, supports_stealth := false,
               service_id := none, auth_string := none, tor_proc := none }
             (fun _ => CreateResult.ok [["250", "-", "ServiceID=abc"]]) 8080).2.2
      = [startReq false 8080]
    ∧ (startReq false 8080).portMap = [(80, 8080)]
    ∧ (startReq false 8080).awaitPublication = true
    ∧ (start { stealth := false, supports_ephemeral := true, supports_stealth := false,
               service_id := none, auth_string := none, tor_proc := none }
             (fun _ => CreateResult.ok [["250", "-", "ServiceID=abc"]]) 8080).2.1.service_id
      = some "abc"
    ∧ (false = true →
        (start { stealth := false, supports_ephemeral := true, supports_stealth := false,
                 service_id := none, auth_string := none, tor_proc := none }
               (fun _ => CreateResult.ok [["250", "-", "ServiceID=abc"]]) 8080).2.1.auth_string
          = some ("HidServAuth " ++ ("abc" ++ ".onion") ++ " " ++ "c")) :=
  start_success_contract _ _ 8080 [["250", "-", "ServiceID=abc"]] "abc" "c"
    rfl (by decide) rfl rfl (by decide)

/-- C5: the stealth capability probe records `supports_stealth = true`
exactly when the sentinel creation (which does not await publication), the
reply parse, and the removal all succeed; on success it removes the
throwaway service exactly once (the parsed id); it never removes more than
one service, and every failing path lands in the `supports_stealth = false`
branch of the bare except rather than raising. -/
theorem stealthProbe_contract (chan : Channel) (removeOk : String → Bool) :
    probeReq.awaitPublication = false
    ∧ ((stealthProbe chan removeOk).1 = true ↔
        ∃ content sid, chan probeReq = .ok content ∧ parseServiceId content = some sid
          ∧ removeOk sid = true)
    ∧ ((stealthProbe chan removeOk).1 = true →
        ∀ content sid, chan probeReq = .ok content → parseServiceId content = some sid →
          (stealthProbe chan removeOk).2 = [sid])
    ∧ (stealthProbe chan removeOk).2.length ≤ 1 := by
  refine ⟨rfl, ?_, ?_, ?_⟩
  · cases hc : chan probeReq with
    | protocolError => simp [stealthProbe, hc]
    | otherError => simp [stealthProbe, hc]
    | ok content =>
      cases hp : parseServiceId content with
      | none => simp [stealthProbe, hc, hp]
      | some sid => cases hr : removeOk sid <;> simp [stealthProbe, hc, hp, hr]
  · intro hflag content sid hc hp
    simp only [stealthProbe, hc, hp] at hflag ⊢
    cases hr : removeOk sid <;> simp [hr] at hflag ⊢
  · cases hc : chan probeReq with
    | protocolError => simp [stealthProbe, hc]
    | otherError => simp [stealthProbe, hc]
    | ok content =>
      cases hp : parseServiceId content with
      | none => simp [stealthProbe, hc, hp]
      | some sid => cases hr : removeOk sid <;> simp [stealthProbe, hc, hp, hr]

/-- Witness for C5: a channel that accepts the sentinel creation with id
`tmp1` and a removal that succeeds. -/
theorem stealthProbe_contract_witness :
    probeReq.awaitPublication = false
    ∧ ((stealthProbe (fun _ => CreateResult.ok [["250", "-", "ServiceID=tmp1"]])
          (fun _ => true)).1 = true ↔
        ∃ content sid,
          (fun _ => CreateResult.ok [["250", "-", "ServiceID=tmp1"]] : Channel) probeReq
              = .ok content
            ∧ parseServiceId content = some sid ∧ (fun _ => true : String → Bool) sid = true)
    ∧ ((stealthProbe (fun _ => CreateResult.ok [["250", "-", "ServiceID=tmp1"]])
          (fun _ => true)).1 = true →
        ∀ content sid,
          (fun _ => CreateResult.ok [["250", "-", "ServiceID=tmp1"]] : Channel) probeReq
              = .ok content →
          parseServiceId content = some sid →
          (stealthProbe (fun _ => CreateResult.ok [["250", "-", "ServiceID=tmp1"]])
            (fun _ => true)).2 = [sid])
    ∧ (stealthProbe (fun _ => CreateResult.ok [["250", "-", "ServiceID=tmp1"]])
        (fun _ => true)).2.length ≤ 1 :=
  stealthProbe_contract (fun _ => CreateResult.ok [["250", "-", "ServiceID=tmp1"]])
    (fun _ => true)

/-- C2 counterexample: with a live tor subprocess whose `terminate()` call
raises, `cleanup()` propagates the exception and leaves `tor_proc` set —
refuting that cleanup never raises and always clears the process handle
even when the process signals fail. -/
theorem cleanup_raises_on_terminate_failure :
    (cleanup { stealth := false, supports_ephemeral := true, supports_stealth := false,
               service_id := some "svc", auth_string := none, tor_proc := some 1 }
             { removeRaises := true, terminateRaises := true,
               pollAfterGrace := .stillRunning, killRaises := false }).1 = .raised
    ∧ (cleanup { stealth := false, supports_ephemeral := true, supports_stealth := false,
                 service_id := some "svc", auth_string := none, tor_proc := some 1 }
               { removeRaises := true, terminateRaises := true,
                 pollAfterGrace := .stillRunning, killRaises := false }).2.1.tor_proc
      = some 1 := ⟨rfl, rfl⟩

/-- C2 amended: `cleanup()` never raises and is idempotent provided the
process signal calls (`terminate`, `kill`) do not themselves raise:
service-removal failures are always swallowed, `service_id` and `tor_proc`
are cleared, and a second `cleanup()` — under any environment, even one
whose signal calls would raise — returns normally, changes nothing and
sends no signal. -/
theorem cleanup_contract (st : OnionState) (w w2 : CleanupWorld)
    (ht : w.terminateRaises = false) (hk : w.killRaises = false) :
    (cleanup st w).1 = .ok
    ∧ (cleanup st w).2.1.service_id = none
    ∧ (cleanup st w).2.1.tor_proc = none
    ∧ (cleanup (cleanup st w).2.1 w2).1 = .ok
    ∧ (cleanup (cleanup st w).2.1 w2).2.1 = (cleanup st w).2.1
    ∧ (cleanup (cleanup st w).2.1 w2).2.2 = [] := by
  have h1 : (cleanup st w).1 = .ok ∧ (cleanup st w).2.1.service_id = none
      ∧ (cleanup st w).2.1.tor_proc = none := by
    cases hsv : st.service_id <;> cases htp : st.tor_proc <;>
      simp [cleanup, hsv, htp, ht, hk] <;> split <;> simp
  refine ⟨h1.1, h1.2.1, h1.2.2, ?_, ?_, ?_⟩ <;>
    · have hs1 : (cleanup st w).2.1.service_id = none := h1.2.1
      have hp1 : (cleanup st w).2.1.tor_proc = none := h1.2.2
      generalize hG : (cleanup st w).2.1 = st1 at hs1 hp1 ⊢
      simp [cleanup, hs1, hp1]

/-- Witness for C2 amended: a manager with a live service and process, a
first environment whose removal raises but whose signals succeed, and a
second environment in which every call would raise. -/
theorem cleanup_contract_witness :
    (cleanup { stealth := false, supports_ephemeral := true, supports_stealth := false,
               service_id := some "svc", auth_string := none, tor_proc := some 1 }
             { removeRaises := true, terminateRaises := false,
               pollAfterGrace := .exited 1, killRaises := false }).1 = .ok
    ∧ (cleanup { stealth := false, supports_ephemeral := true, supports_stealth := false,
                 service_id := some "svc", auth_string := none, tor_proc := some 1 }
               { removeRaises := true, terminateRaises := false,
                 pollAfterGrace := .exited 1, killRaises := false }).2.1.service_id = none
    ∧ (cleanup { stealth := false, supports_ephemeral := true, supports_stealth := false,
                 service_id := some "svc", auth_string := none, tor_proc := some 1 }
               { removeRaises := true, terminateRaises := false,
                 pollAfterGrace := .exited 1, killRaises := false }).2.1.tor_proc = none
    ∧ (cleanup (cleanup { stealth := false, supports_ephemeral := true, supports_stealth := false,
                          service_id := some "svc", auth_string := none, tor_proc := some 1 }
                        { removeRaises := true, terminateRaises := false,
                          pollAfterGrace := .exited 1, killRaises := false }).2.1
               { removeRaises := true, terminateRaises := true,
                 pollAfterGrace := .stillRunning, killRaises := true }).1 = .ok
    ∧ (cleanup (cleanup { stealth := false, supports_ephemeral := true, supports_stealth := false,
                          service_id := some "svc", auth_string := none, tor_proc := some 1 }
                        { removeRaises := true, terminateRaises := false,
                          pollAfterGrace := .exited 1, killRaises := false }).2.1
               { removeRaises := true, terminateRaises := true,
                 pollAfterGrace := .stillRunning, killRaises := true }).2.1
      = (cleanup { stealth := false, supports_ephemeral := true, supports_stealth := false,
                   service_id := some "svc", auth_string := none, tor_proc := some 1 }
                 { removeRaises := true, terminateRaises := false,
                   pollAfterGrace := .exited 1, killRaises := false }).2.1
    ∧ (cleanup (cleanup { stealth := false, supports_ephemeral := true, supports_stealth := false,
                          service_id := some "svc", auth_string := none, tor_proc := some 1 }
                        { removeRaises := true, terminateRaises := false,
                          pollAfterGrace := .exited 1, killRaises := false }).2.1
               { removeRaises := true, terminateRaises := true,
                 pollAfterGrace := .stillRunning, killRaises := true }).2.2 = [] :=
  cleanup_contract _ _ _ rfl rfl

/-- C7 counterexample: when the process already exited with status 0,
`poll()` returns 0, `not 0` is truthy, and `cleanup()` sends the forceful
kill although the process is not still running — refuting that kill is
sent if and only if the process is still running after the grace period. -/
theorem cleanup_kills_exited_process :
    (cleanup { stealth := false, supports_ephemeral := true, supports_stealth := false,
               service_id := none, auth_string := none, tor_proc := some 2 }
             { removeRaises := false, terminateRaises := false,
               pollAfterGrace := .exited 0, killRaises := false }).2.2
      = [Signal.terminate, Signal.kill]
    ∧ PollResult.exited 0 ≠ PollResult.stillRunning := ⟨rfl, by decide⟩

/-- C7 amended: process termination during cleanup sends `terminate`,
waits the 200ms grace period, then sends `kill` iff `poll()` returned a
Python-falsy value — `None` (still running) or exit status `0` — and
clears `tor_proc` provided no signal call raises; a raising `terminate`
propagates, sends nothing further, and leaves `tor_proc` set. -/
theorem cleanup_signal_contract (st : OnionState) (w : CleanupWorld)
    (hp : st.tor_proc ≠ none) :
    (w.terminateRaises = false → w.killRaises = false →
      (cleanup st w).2.2
          = Signal.terminate :: (if pollIsFalsy w.pollAfterGrace then [Signal.kill] else [])
        ∧ (cleanup st w).2.1.tor_proc = none
        ∧ (cleanup st w).1 = .ok)
    ∧ (w.terminateRaises = true →
      (cleanup st w).1 = .raised
        ∧ (cleanup st w).2.1.tor_proc = st.tor_proc
        ∧ (cleanup st w).2.2 = [Signal.terminate]) := by
  obtain ⟨pid, htp⟩ := Option.ne_none_iff_exists'.mp hp
  constructor
  · intro ht hk
    cases hsv : st.service_id <;>
      · simp [cleanup, hsv, htp, ht, hk]
        split <;> simp
  · intro ht
    cases hsv : st.service_id <;> simp [cleanup, hsv, htp, ht]

/-- Witness for C7 amended: a process that exited with a nonzero status
gets no kill signal, and the handle is cleared. -/
theorem cleanup_signal_contract_witness :
    (({ removeRaises := false, terminateRaises := false,
        pollAfterGrace := .exited 7, killRaises := false } : CleanupWorld).terminateRaises = false →
      ({ removeRaises := false, terminateRaises := false,
         pollAfterGrace := .exited 7, killRaises := false } : CleanupWorld).killRaises = false →
      (cleanup { stealth := false, supports_ephemeral := true, supports_stealth := false,
                 service_id := none, auth_string := none, tor_proc := some 3 }
               { removeRaises := false, terminateRaises := false,
                 pollAfterGrace := .exited 7, killRaises := false }).2.2
          = Signal.terminate ::
            (if pollIsFalsy ({ removeRaises := false, terminateRaises := false,
                               pollAfterGrace := .exited 7,
                               killRaises := false } : CleanupWorld).pollAfterGrace
              then [Signal.kill] else [])
        ∧ (cleanup { stealth := false, supports_ephemeral := true, supports_stealth := false,
                     service_id := none, auth_string := none, tor_proc := some 3 }
                   { removeRaises := false, terminateRaises := false,
                     pollAfterGrace := .exited 7, killRaises := false }).2.1.tor_proc = none
        ∧ (cleanup { stealth := false, supports_ephemeral := true, supports_stealth := false,
                     service_id := none, auth_string := none, tor_proc := some 3 }
                   { removeRaises := false, terminateRaises := false,
                     pollAfterGrace := .exited 7, killRaises := false }).1 = .ok)
    ∧ (({ removeRaises := false, terminateRaises := false,
          pollAfterGrace := .exited 7, killRaises := false } : CleanupWorld).terminateRaises = true →
      (cleanup { stealth := false, supports_ephemeral := true, supports_stealth := false,
                 service_id := none, auth_string := none, tor_proc := some 3 }
               { removeRaises := false, terminateRaises := false,
                 pollAfterGrace := .exited 7, killRaises := false }).1 = .raised
        ∧ (cleanup { stealth := false, supports_ephemeral := true, supports_stealth := false,
                     service_id := none, auth_string := none, tor_proc := some 3 }
                   { removeRaises := false, terminateRaises := false,
                     pollAfterGrace := .exited 7, killRaises := false }).2.1.tor_proc
          = ({ stealth := false, supports_ephemeral := true, supports_stealth := false,
               service_id := none, auth_string := none, tor_proc := some 3 } : OnionState).tor_proc
        ∧ (cleanup { stealth := false, supports_ephemeral := true, supports_stealth := false,
                     service_id := none, auth_string := none, tor_proc := some 3 }
                   { removeRaises := false, terminateRaises := false,
                     pollAfterGrace := .exited 7, killRaises := false }).2.2
          = [Signal.terminate]) :=
  cleanup_signal_contract _ _ (by decide)

/-- C1: on Linux with no environment override and every candidate failing,
construction does raise `TorErrorAutomatic`, but the attempted candidates
are only port 9151 and the two socket paths: the exception from the first
failed `from_port` aborts the `for` loop (the `try` wraps the whole loop),
so ports 9153 and 9051 are never attempted, contrary to the claim. -/
theorem automatic_allFail_eval :
    automaticConnect "Linux" 1000
      { envPort := none, portOk := fun _ => false, socketOk := fun _ => false,
        authOk := false }
      = (.error .TorErrorAutomatic,
         [Attempt.port 9151, Attempt.socketFile "",
          Attempt.socketFile "/run/user/1000/Tor/control.socket"]) := rfl

/-- C6: a configuration whose connection type is unrecognized does not
fail with `TorErrorInvalidSetting`: the `raise TorErrorInvalidSetting`
sits inside the `try` whose bare `except:` catches it and re-raises by
connection type, producing `TorErrorSocketFile`. -/
theorem manual_unknown_connection_type_eval :
    manualConnect { connection_type := "leetspeak", auth_type := "no_auth",
                    auth_password := "", control_port_address := "127.0.0.1",
                    control_port_port := 9051, socket_file_path := "/tmp/ctrl" }
                  { portConnectOk := true, socketConnectOk := true, authResult := .ok }
      = .error .TorErrorSocketFile := rfl

/-- C9 counterexample: with the same random draw available at both probe
times (the first probe socket is closed before the second probe binds),
the control and SOCKS allocations of a bundled Windows session return the
same port. -/
theorem bundledPorts_can_coincide :
    bundledWindowsPorts (fun _ => 9999) (fun _ => true) (fun _ => true) 1
      = some (9999, 9999) := rfl

/-- Soundness of one bind-probe-release allocation: a returned port is one
of the random draws and was bindable at its probe time. -/
theorem get_available_port_sound (rands : Nat → Nat) (avail : Nat → Bool) :
    ∀ fuel i p j : Nat, get_available_port rands avail fuel i = some (p, j) →
      avail p = true ∧ ∃ l, p = rands l := by
  intro fuel
  induction fuel with
  | zero => intro i p j h; simp [get_available_port] at h
  | succ n ih =>
    intro i p j h
    simp only [get_available_port] at h
    by_cases ha : avail (rands i) = true
    · rw [if_pos ha] at h
      have hpj := Option.some.inj h
      have hp : rands i = p := congrArg Prod.fst hpj
      exact ⟨hp ▸ ha, i, hp.symm⟩
    · rw [if_neg ha] at h
      exact ih (i + 1) p j h

/-- C9 amended: port allocation guarantees only that each returned port
was one of the random draws and was bindable at its own probe time; since
the control-port probe socket is closed before the SOCKS probe, the two
ports of a bundled session are not guaranteed distinct. -/
theorem bundledWindowsPorts_sound (rands : Nat → Nat) (avail1 avail2 : Nat → Bool)
    (fuel c s : Nat)
    (h : bundledWindowsPorts rands avail1 avail2 fuel = some (c, s)) :
    avail1 c = true ∧ avail2 s = true
      ∧ (∃ l, c = rands l) ∧ (∃ l, s = rands l) := by
  cases h1 : get_available_port rands avail1 fuel 0 with
  | none => simp [bundledWindowsPorts, h1] at h
  | some pj =>
    obtain ⟨p1, j1⟩ := pj
    simp only [bundledWindowsPorts, h1] at h
    cases h2 : get_available_port rands avail2 fuel j1 with
    | none => rw [h2] at h; simp at h
    | some qk =>
      obtain ⟨q1, k1⟩ := qk
      rw [h2] at h
      simp only [Option.some.injEq, Prod.mk.injEq] at h
      obtain ⟨hc, hs⟩ := h
      obtain ⟨ha1, l1, hl1⟩ := get_available_port_sound rands avail1 fuel 0 p1 j1 h1
      obtain ⟨ha2, l2, hl2⟩ := get_available_port_sound rands avail2 fuel j1 q1 k1 h2
      exact ⟨hc ▸ ha1, hs ▸ ha2, ⟨l1, hc ▸ hl1⟩, ⟨l2, hs ▸ hl2⟩⟩

/-- Witness for C9 amended: consecutive draws 2000, 2001, all bindable. -/
theorem bundledWindowsPorts_sound_witness :
    (fun _ => true : Nat → Bool) 2000 = true ∧ (fun _ => true : Nat → Bool) 2001 = true
      ∧ (∃ l, 2000 = (fun i => 2000 + i : Nat → Nat) l)
      ∧ (∃ l, 2001 = (fun i => 2000 + i : Nat → Nat) l) :=
  bundledWindowsPorts_sound (fun i => 2000 + i) (fun _ => true) (fun _ => true) 1
    2000 2001 rfl

/-- A poll at index `j` that parses, whose summary is not `Done`, and that
does not trip the 45-second cap: the loop continues past it. -/
def pollsNonDone (replies : Nat → List String) (clock : Nat → ℚ) (j : Nat) : Prop :=
  (∃ pgs, parseProgress (replies j) = some pgs)
    ∧ (∃ s, parseSummary (replies j) = some s ∧ s ≠ "Done")
    ∧ clock j ≤ 45

/-- One continuing iteration of the poll loop. -/
theorem monitor_step (replies : Nat → List String) (clock : Nat → ℚ)
    (fuel i : Nat) (h : pollsNonDone replies clock i) :
    monitor replies clock (fuel + 1) i = monitor replies clock fuel (i + 1) := by
  obtain ⟨⟨pgs, hp⟩, ⟨s, hs, hsd⟩, hc⟩ := h
  have hb : (s == "Done") = false := by simpa using hsd
  have hnc : ¬ (clock i > 45) := not_lt.mpr hc
  simp [monitor, hp, hs, hb, hnc]

/-- The poll loop passes over any block of continuing iterations. -/
theorem monitor_runs (replies : Nat → List String) (clock : Nat → ℚ) :
    ∀ (n i fuel : Nat), (∀ j, i ≤ j → j < i + n → pollsNonDone replies clock j) →
      monitor replies clock (fuel + n) i = monitor replies clock fuel (i + n) := by
  intro n
  induction n with
  | zero => intro i fuel _; rfl
  | succ m ih =>
    intro i fuel h
    calc monitor replies clock (fuel + (m + 1)) i
        = monitor replies clock ((fuel + m) + 1) i := rfl
      _ = monitor replies clock (fuel + m) (i + 1) :=
          monitor_step replies clock (fuel + m) i (h i le_rfl (by omega))
      _ = monitor replies clock fuel ((i + 1) + m) :=
          ih (i + 1) fuel (fun j hj1 hj2 => h j (by omega) (by omega))
      _ = monitor replies clock fuel (i + (m + 1)) :=
          congrArg (monitor replies clock fuel) (by omega)

/-- C8: the poll loop terminates successfully at the first poll whose
parsed SUMMARY equals `Done`, consulting no reply past it; and on a
channel whose summaries never read `Done`, it raises the timeout at the
first poll whose elapsed time exceeds 45 seconds, having sent exactly one
`terminate()` to the tor process. -/
theorem monitor_contract
    (replies1 : Nat → List String) (clock1 : Nat → ℚ) (k fuel1 : Nat)
    (replies2 : Nat → List String) (clock2 : Nat → ℚ) (m fuel2 : Nat)
    (h1 : ∀ j, j < k → pollsNonDone replies1 clock1 j)
    (h1p : ∃ pgs, parseProgress (replies1 k) = some pgs)
    (h1d : parseSummary (replies1 k) = some "Done")
    (hf1 : k < fuel1)
    (h2 : ∀ j, j ≤ m → (∃ pgs, parseProgress (replies2 j) = some pgs)
            ∧ (∃ s, parseSummary (replies2 j) = some s ∧ s ≠ "Done"))
    (h2c : ∀ j, j < m → clock2 j ≤ 45)
    (h2t : clock2 m > 45)
    (hf2 : m < fuel2) :
    monitor replies1 clock1 fuel1 0 = .done (k + 1)
    ∧ monitor replies2 clock2 fuel2 0 = .timeout (m + 1) 1 := by
  constructor
  · obtain ⟨d, rfl⟩ : ∃ d, fuel1 = (d + 1) + k := ⟨fuel1 - k - 1, by omega⟩
    rw [monitor_runs replies1 clock1 k 0 (d + 1) (fun j hj0 hjk => h1 j (by omega))]
    obtain ⟨pgs, hp⟩ := h1p
    simp [monitor, Nat.zero_add, hp, h1d]
  · obtain ⟨d, rfl⟩ : ∃ d, fuel2 = (d + 1) + m := ⟨fuel2 - m - 1, by omega⟩
    rw [monitor_runs replies2 clock2 m 0 (d + 1)
      (fun j hj0 hjm => ⟨(h2 j (by omega)).1, (h2 j (by omega)).2, h2c j (by omega)⟩)]
    obtain ⟨⟨pgs, hp⟩, ⟨s, hs, hsd⟩⟩ := h2 m le_rfl
    have hb : (s == "Done") = false := by simpa using hsd
    simp [monitor, Nat.zero_add, hp, hs, hb, h2t]

/-- Witness for C8: a channel that reports `Done` on its second poll, and a
channel that never reports `Done` while the clock passes 45s before its
second timeout check. -/
theorem monitor_contract_witness :
    monitor
        (fun j => if j == 0
          then ["NOTICE", "BOOTSTRAP", "PROGRESS=50", "TAG=conn", "SUMMARY=Connecting"]
          else ["NOTICE", "BOOTSTRAP", "PROGRESS=100", "TAG=done", "SUMMARY=Done"])
        (fun _ => (1 : ℚ)) 3 0 = .done (1 + 1)
    ∧ monitor
        (fun _ => ["NOTICE", "BOOTSTRAP", "PROGRESS=10", "TAG=conn", "SUMMARY=Connecting"])
        (fun j => if j == 0 then (10 : ℚ) else 50) 3 0 = .timeout (1 + 1) 1 :=
  monitor_contract
    (fun j => if j == 0
      then ["NOTICE", "BOOTSTRAP", "PROGRESS=50", "TAG=conn", "SUMMARY=Connecting"]
      else ["NOTICE", "BOOTSTRAP", "PROGRESS=100", "TAG=done", "SUMMARY=Done"])
    (fun _ => (1 : ℚ)) 1 3
    (fun _ => ["NOTICE", "BOOTSTRAP", "PROGRESS=10", "TAG=conn", "SUMMARY=Connecting"])
    (fun j => if j == 0 then (10 : ℚ) else 50) 1 3
    (by
      intro j hj
      interval_cases j
      exact ⟨⟨"50", rfl⟩, ⟨"Connecting", rfl, by decide⟩, by norm_num⟩)
    ⟨"100", rfl⟩
    rfl
    (by norm_num)
    (fun j _ => ⟨⟨"10", rfl⟩, ⟨"Connecting", rfl, by decide⟩⟩)
    (by
      intro j hj
      interval_cases j
      norm_num)
    (by norm_num)
    (by norm_num)

end Onionshare
